import Mathlib

/-!
Verification of the Transfer Status Synchronization core of the
zenobia-pay/ui-solid repository.

The development shallowly embeds the payment-modal session logic of
`src/src/index-bundle.tsx` (the `ZenobiaPaymentModal` component: its
`handleStatusUpdate`, `handleWebSocketError`, `handleConnectionChange`
handlers, the QR-code generation effect and the cleanup paths), the
duplicated handler of `src/unnamed/part_005` / `part_008`
(`ZenobiaPaymentButton`), and the HTTP helpers of
`src/node_modules/@zenobia/client/src/api.ts` and `zenobiaClient.ts`.

Reactive signals become explicit record fields of `ModalState`; calls to
the UI callbacks and to `client.disconnect()` become an explicit output
list of `CallbackCall` values produced by each handler step.
-/

/-- The public `TransferStatus` enum of `ZenobiaPaymentButton`
(`src/unnamed/part_005`, lines 19–25). -/
inductive TransferStatus where
  | PENDING
  | IN_FLIGHT
  | COMPLETED
  | FAILED
  | CANCELLED
deriving DecidableEq, Repr

/-- Terminal statuses: `COMPLETED`, `FAILED`, `CANCELLED` (spec §3). -/
def TransferStatus.isTerminal : TransferStatus → Bool
  | .COMPLETED => true
  | .FAILED => true
  | .CANCELLED => true
  | _ => false

/-- The `CreateTransferRequestResponse` record
(`src/unnamed/part_005`, lines 11–16). -/
structure TransferRecord where
  transferRequestId : String
  merchantId : String
  expiry : Option Nat
  signature : Option String
deriving DecidableEq, Repr

/-- A raw channel-sourced status event (`ClientTransferStatus`): a JSON
object with a `status` string field; further opaque fields are not
inspected by any of the embedded code. -/
structure RawStatusEvent where
  status : String
deriving DecidableEq, Repr

/-- Which of the optional UI callbacks the host page supplied
(`props.onSuccess`, `props.onError`, `props.onStatusChange`). -/
structure Props where
  hasOnSuccess : Bool
  hasOnError : Bool
  hasOnStatusChange : Bool
deriving DecidableEq, Repr

/-- One observable action performed by a handler: invoking a UI callback
or calling `disconnect()` on the client. -/
inductive CallbackCall where
  | onSuccess (record : TransferRecord) (raw : RawStatusEvent)
  | onError (msg : String)
  | onStatusChange (status : TransferStatus)
  | disconnect
deriving DecidableEq, Repr

/-- The reactive signals of `ZenobiaPaymentModal` (`src/src/index-bundle.tsx`,
lines 116–135) that the embedded handlers read or write.  `zenobiaClient`
is `some ()` exactly when the stored client reference is non-null. -/
structure ModalState where
  transferStatus : TransferStatus
  zenobiaClient : Option Unit
  transferRequest : Option TransferRecord
  error : Option String
  websocketError : Option String
  isConnected : Bool
  isReconnecting : Bool
  qrScanned : Bool
deriving DecidableEq, Repr

/-- The `if (client) { client.disconnect(); setZenobiaClient(null); }`
idiom repeated in every terminal branch of `handleStatusUpdate`. -/
def disconnectClient (st : ModalState) : ModalState × List CallbackCall :=
  match st.zenobiaClient with
  | some _ => ({ st with zenobiaClient := none }, [CallbackCall.disconnect])
  | none => (st, [])

/-- The status mapping computed by the `switch (status.status)` of
`handleStatusUpdate` (`src/src/index-bundle.tsx`, lines 288–319): the
fused `COMPLETED`/`IN_FLIGHT` cases, `FAILED`, `CANCELLED`, and the
`default` case. -/
def mapRawStatus (s : String) : TransferStatus :=
  if s = "COMPLETED" ∨ s = "IN_FLIGHT" then TransferStatus.COMPLETED
  else if s = "FAILED" then TransferStatus.FAILED
  else if s = "CANCELLED" then TransferStatus.CANCELLED
  else TransferStatus.PENDING

/-- `handleStatusUpdate` of `ZenobiaPaymentModal`
(`src/src/index-bundle.tsx`, lines 283–326; textually identical in
`src/unnamed/part_005` lines 131–174 and `part_008` lines 130–173,
except that those variants read `transferRequest()` the same way).
Returns the updated signal state together with the list of callback /
disconnect calls performed, in order. -/
def handleStatusUpdate (p : Props) (st : ModalState) (ev : RawStatusEvent) :
    ModalState × List CallbackCall :=
  let branch : TransferStatus × ModalState × List CallbackCall :=
    if ev.status = "COMPLETED" ∨ ev.status = "IN_FLIGHT" then
      let successCalls :=
        match p.hasOnSuccess, st.transferRequest with
        | true, some record => [CallbackCall.onSuccess record ev]
        | _, _ => []
      let d := disconnectClient st
      (TransferStatus.COMPLETED, d.1, successCalls ++ d.2)
    else if ev.status = "FAILED" then
      let d := disconnectClient st
      (TransferStatus.FAILED, d.1, d.2)
    else if ev.status = "CANCELLED" then
      let d := disconnectClient st
      (TransferStatus.CANCELLED, d.1, d.2)
    else
      (TransferStatus.PENDING, st, [])
  let st2 := { branch.2.1 with transferStatus := branch.1 }
  let statusCalls :=
    if p.hasOnStatusChange then [CallbackCall.onStatusChange branch.1] else []
  (st2, branch.2.2 ++ statusCalls)

/-- Modelled from the spec: the live status channel is owned by the
`@zenobia/client` package's `listenToTransfer`/`disconnect`, whose
implementation is not under `src/` (only an older `ZenobiaClient` with
`createPayment` is vendored).  Per spec §4.3/§5, the channel invokes the
registered status callback only while the subscription is live, and
`disconnect()` closes the transport, after which no callbacks fire.
`deliverEvents` therefore delivers each raw event to `handleStatusUpdate`
only while the stored client reference is non-null. -/
def deliverEvents (p : Props) (st : ModalState) :
    List RawStatusEvent → ModalState × List CallbackCall
  | [] => (st, [])
  | ev :: rest =>
    if st.zenobiaClient.isSome then
      let r := handleStatusUpdate p st ev
      let r' := deliverEvents p r.1 rest
      (r'.1, r.2 ++ r'.2)
    else
      deliverEvents p st rest

/-- Extract the statuses passed to `onStatusChange`, in order. -/
def statusChangeOutputs (calls : List CallbackCall) : List TransferStatus :=
  calls.filterMap fun c =>
    match c with
    | CallbackCall.onStatusChange s => some s
    | _ => none

/-- The standard base64 alphabet, as indexed by `btoa`. -/
def base64Chars : List Char :=
  "ABCDEFGHIJKLMNOPQRSTUVWXYZabcdefghijklmnopqrstuvwxyz0123456789+/".toList

/-- Index into the base64 alphabet (out-of-range indices never occur for
byte inputs; the fallback keeps the function total). -/
def b64char (n : Nat) : Char :=
  match base64Chars.get? n with
  | some c => c
  | none => 'A'

/-- Encode a byte list into base64 characters, three bytes at a time,
with `=` padding for a one- or two-byte tail. -/
def encodeChunks : List Nat → List Char
  | [] => []
  | [b0] =>
    [b64char (b0 / 4), b64char (b0 % 4 * 16), '=', '=']
  | [b0, b1] =>
    [b64char (b0 / 4), b64char (b0 % 4 * 16 + b1 / 16), b64char (b1 % 16 * 4), '=']
  | b0 :: b1 :: b2 :: rest =>
    b64char (b0 / 4) :: b64char (b0 % 4 * 16 + b1 / 16) ::
      b64char (b1 % 16 * 4 + b2 / 64) :: b64char (b2 % 64) :: encodeChunks rest

/-- Modelled from the platform: the browser built-in `btoa` used by the
QR-generation effect — base64 over the string's Latin-1 code units
(transfer identifiers are ASCII, so the `% 256` is inert). -/
def btoa (s : String) : String :=
  String.mk (encodeChunks (s.toList.map fun c => c.toNat % 256))

/-- The two chained `.replace(/\+/g, "-").replace(/\//g, "_")` calls:
a single character map, since `+` is never rewritten to `/`. -/
def urlSafeChar (c : Char) : Char :=
  if c = '+' then '-' else if c = '/' then '_' else c

/-- The `.replace(/=+$/, "")` call: drop the trailing run of `=`. -/
def stripTrailingEq (cs : List Char) : List Char :=
  ((cs.reverse).dropWhile fun c => c == '=').reverse

/-- The QR-payload encoding of `src/src/index-bundle.tsx`, lines 213–220:
strip all `-` characters, `btoa`, make URL-safe, strip `=` padding. -/
def encodeQrPayload (transferRequestId : String) : String :=
  let transferIdNoDashes :=
    String.mk (transferRequestId.toList.filter fun c => c != '-')
  let base64TransferId := btoa transferIdNoDashes
  String.mk (stripTrailingEq (base64TransferId.toList.map urlSafeChar))

/-- The QR-code generation effect of `ZenobiaPaymentModal`
(`src/src/index-bundle.tsx`, lines 211–228): the guard
`if (transferRequest()?.transferRequestId)` is JavaScript truthiness, so
a null record or an empty identifier makes the whole effect a silent
no-op; otherwise the effect produces the QR target URL.  No error is
signalled on any path. -/
def qrCodeEffect (transferRequest : Option TransferRecord) (isTest : Bool) :
    Option String :=
  match transferRequest with
  | none => none
  | some r =>
    if r.transferRequestId = "" then none
    else
      let qrString :=
        "https://zenobiapay.com/clip?id=" ++ encodeQrPayload r.transferRequestId
      some (if isTest then qrString ++ "&type=test" else qrString)

/-- Whether `pat` occurs at the head of `hay`. -/
def startsWithList : List Char → List Char → Bool
  | _, [] => true
  | [], _ :: _ => false
  | c :: cs, q :: qs => c = q && startsWithList cs qs

/-- Whether `pat` occurs as a contiguous sublist of `hay`
(the semantics of JavaScript `String.prototype.includes`). -/
def hasSubList (pat : List Char) : List Char → Bool
  | [] => startsWithList [] pat
  | c :: cs => startsWithList (c :: cs) pat || hasSubList pat cs

/-- `errorMsg.toLowerCase()` as a character list. -/
def lowerChars (s : String) : List Char :=
  s.toList.map Char.toLower

/-- `errorMsg.toLowerCase().includes(pat)`. -/
def containsSub (s pat : String) : Bool :=
  hasSubList pat.toList (lowerChars s)

/-- The `isDisconnectionError` classification of `handleWebSocketError`
(`src/src/index-bundle.tsx`, lines 333–337). -/
def isDisconnectionError (errorMsg : String) : Bool :=
  containsSub errorMsg "disconnect" ||
  containsSub errorMsg "connection lost" ||
  containsSub errorMsg "network error" ||
  containsSub errorMsg "timeout"

/-- `handleWebSocketError` of `ZenobiaPaymentModal`
(`src/src/index-bundle.tsx`, lines 328–350): connectivity-flavoured
messages set the reconnecting state and are not surfaced; every other
message is stored in `error` and surfaced via `onError` when provided. -/
def handleWebSocketError (p : Props) (st : ModalState) (errorMsg : String) :
    ModalState × List CallbackCall :=
  if isDisconnectionError errorMsg then
    ({ st with websocketError := some errorMsg, isReconnecting := true }, [])
  else
    ({ st with error := some errorMsg },
      if p.hasOnError then [CallbackCall.onError errorMsg] else [])

/-- `handleConnectionChange` of `ZenobiaPaymentModal`
(`src/src/index-bundle.tsx`, lines 352–368). -/
def handleConnectionChange (st : ModalState) (connected : Bool) : ModalState :=
  if connected then
    { st with isConnected := true, isReconnecting := false,
              websocketError := none }
  else
    { st with isConnected := false, isReconnecting := true }

/-- The `onCleanup` unmount path (`src/src/index-bundle.tsx`, lines
386–391, and `src/unnamed/part_005`, lines 191–197): disconnects the
client when one exists but does not clear the stored reference. -/
def onCleanupStep (st : ModalState) : ModalState × List CallbackCall :=
  match st.zenobiaClient with
  | some _ => (st, [CallbackCall.disconnect])
  | none => (st, [])

/-- The modal-close cleanup effect (`src/src/index-bundle.tsx`, lines
394–407), taken when `props.isOpen` turns false: disconnects and clears
the client when one exists, then resets the per-session signals. -/
def modalCloseCleanup (st : ModalState) : ModalState × List CallbackCall :=
  let d :=
    match st.zenobiaClient with
    | some _ => ({ st with zenobiaClient := none }, [CallbackCall.disconnect])
    | none => (st, [])
  ({ d.1 with qrScanned := false, isReconnecting := false,
              websocketError := none, error := none }, d.2)

/-- The fields of a settled `fetch` response that the embedded HTTP
helpers inspect: `ok` (2xx), `statusText`, and the `message` field of
the JSON-parsed body (`none` when the body has no such field). -/
structure FetchResponse where
  ok : Bool
  statusText : String
  bodyMessage : Option String
deriving DecidableEq, Repr

/-- The parsed success body of the create-transfer endpoint
(`src/node_modules/@zenobia/client/src/api.ts`, lines 6–10). -/
structure TransferResponse where
  transferRequestId : String
  merchantId : String
  amount : Nat
deriving DecidableEq, Repr

/-- `createTransfer` of `src/node_modules/@zenobia/client/src/api.ts`,
lines 12–35: on a non-ok response it throws
`` `Error creating transfer: ${response.statusText}` `` without reading
the body; on an ok response it returns the parsed body. -/
def createTransfer (resp : FetchResponse) (parsedBody : TransferResponse) :
    Except String TransferResponse :=
  if resp.ok then Except.ok parsedBody
  else Except.error ("Error creating transfer: " ++ resp.statusText)

/-- `ZenobiaClient.createPayment` of
`src/node_modules/@zenobia/client/src/zenobiaClient.ts`, lines 15–47:
on a non-ok response it throws
`new Error(error.message || "Failed to create payment")` — the parsed
body's `message` when present and truthy (non-empty), else the generic
message; on an ok response it returns the payment id. -/
def createPayment (resp : FetchResponse) (paymentId : Nat) :
    Except String Nat :=
  if resp.ok then Except.ok paymentId
  else
    Except.error
      (match resp.bodyMessage with
       | some m => if m = "" then "Failed to create payment" else m
       | none => "Failed to create payment")

/-- Modelled from the spec: §4.1 — `encode(transferRequestId)` "No error
conditions other than rejecting an empty identifier (signals
`InvalidArgument`)."  Stated only for comparison with the source-derived
`qrCodeEffect`, which has no error path. -/
def encodeRejectingEmpty (transferRequestId : String) : Except String String :=
  if transferRequestId = "" then Except.error "InvalidArgument"
  else Except.ok (encodeQrPayload transferRequestId)

/-- All three optional callbacks supplied. -/
def allProps : Props := ⟨true, true, true⟩

/-- The golden transfer record of spec §8. -/
def goldenRecord : TransferRecord :=
  ⟨"2f9b7e10-aa11-4cde-9012-abcdef123456", "m1", none, some "sig"⟩

/-- A freshly started tracking session: client live, record held. -/
def startedState : ModalState :=
  { transferStatus := TransferStatus.PENDING
    zenobiaClient := some ()
    transferRequest := some goldenRecord
    error := none
    websocketError := none
    isConnected := true
    isReconnecting := false
    qrScanned := false }

example : mapRawStatus "COMPLETED" = TransferStatus.COMPLETED := by decide
example : mapRawStatus "IN_FLIGHT" = TransferStatus.COMPLETED := by decide
example : mapRawStatus "banana" = TransferStatus.PENDING := by decide
example : btoa "abc" = "YWJj" := by decide
example : btoa "ab" = "YWI=" := by decide
example : btoa "a" = "YQ==" := by decide
example : isDisconnectionError "Connection TIMEOUT after 30s" = true := by decide
example : isDisconnectionError "payment declined" = false := by decide

/-- A session state after a terminal status was stored and the client
reference cleared, as the code leaves it. -/
def terminalState : ModalState :=
  { startedState with
    transferStatus := TransferStatus.COMPLETED
    zenobiaClient := none }

/-- The stored status after a handler step is exactly the switch
mapping of the raw event's `status` string. -/
theorem hsu_transferStatus (p : Props) (st : ModalState) (ev : RawStatusEvent) :
    (handleStatusUpdate p st ev).1.transferStatus = mapRawStatus ev.status := by
  rcases hz : st.zenobiaClient with _ | u <;>
    simp only [handleStatusUpdate, mapRawStatus, disconnectClient, hz] <;>
    split_ifs <;> rfl

/-- After a handler step on a terminal-mapping event, the stored client
reference is null. -/
theorem hsu_client_none_of_terminal (p : Props) (st : ModalState)
    (ev : RawStatusEvent) (hterm : (mapRawStatus ev.status).isTerminal = true) :
    (handleStatusUpdate p st ev).1.zenobiaClient = none := by
  rcases hz : st.zenobiaClient with _ | u <;>
    simp only [handleStatusUpdate, mapRawStatus, disconnectClient, hz] <;>
    simp only [mapRawStatus] at hterm <;>
    split_ifs at hterm ⊢ <;>
    first | rfl | exact hz | exact absurd hterm (by decide)

/-- When `onStatusChange` is provided, every handler step fires it with
the mapped status. -/
theorem hsu_statusChange_mem (p : Props) (st : ModalState) (ev : RawStatusEvent)
    (h : p.hasOnStatusChange = true) :
    CallbackCall.onStatusChange (mapRawStatus ev.status) ∈
      (handleStatusUpdate p st ev).2 := by
  rcases hz : st.zenobiaClient with _ | u <;>
    simp only [handleStatusUpdate, mapRawStatus, disconnectClient, hz, h] <;>
    split_ifs <;> simp

/-- With the client reference cleared, the channel delivers nothing. -/
theorem deliverEvents_of_no_client (p : Props) (st : ModalState)
    (h : st.zenobiaClient = none) (evs : List RawStatusEvent) :
    deliverEvents p st evs = (st, []) := by
  induction evs with
  | nil => rfl
  | cons ev rest ih => simp [deliverEvents, h, ih]

/-- C1: for every raw status event, `handleStatusUpdate` maps the
event's `status` field to the public `TransferStatus` as follows:
`"COMPLETED"` or `"IN_FLIGHT"` map to `COMPLETED`, `"FAILED"` maps to
`FAILED`, `"CANCELLED"` maps to `CANCELLED`, and every other string maps
to `PENDING`. -/
theorem handler_status_mapping (p : Props) (st : ModalState) (ev : RawStatusEvent) :
    ((ev.status = "COMPLETED" ∨ ev.status = "IN_FLIGHT" →
        (handleStatusUpdate p st ev).1.transferStatus = TransferStatus.COMPLETED)) ∧
    (ev.status = "FAILED" →
        (handleStatusUpdate p st ev).1.transferStatus = TransferStatus.FAILED) ∧
    (ev.status = "CANCELLED" →
        (handleStatusUpdate p st ev).1.transferStatus = TransferStatus.CANCELLED) ∧
    (ev.status ≠ "COMPLETED" → ev.status ≠ "IN_FLIGHT" → ev.status ≠ "FAILED" →
      ev.status ≠ "CANCELLED" →
        (handleStatusUpdate p st ev).1.transferStatus = TransferStatus.PENDING) := by
  have hs := hsu_transferStatus p st ev
  refine ⟨fun h => ?_, fun h => ?_, fun h => ?_, fun h1 h2 h3 h4 => ?_⟩ <;>
    rw [hs] <;> simp [mapRawStatus, *]

/-- Witness for C1 at the four kinds of concrete raw status values. -/
theorem handler_status_mapping_witness :
    (handleStatusUpdate allProps startedState ⟨"IN_FLIGHT"⟩).1.transferStatus =
      TransferStatus.COMPLETED ∧
    (handleStatusUpdate allProps startedState ⟨"FAILED"⟩).1.transferStatus =
      TransferStatus.FAILED ∧
    (handleStatusUpdate allProps startedState ⟨"CANCELLED"⟩).1.transferStatus =
      TransferStatus.CANCELLED ∧
    (handleStatusUpdate allProps startedState ⟨"SOMETHING_ELSE"⟩).1.transferStatus =
      TransferStatus.PENDING := by
  refine ⟨?_, ?_, ?_, ?_⟩
  · exact (handler_status_mapping allProps startedState ⟨"IN_FLIGHT"⟩).1 (Or.inr rfl)
  · exact (handler_status_mapping allProps startedState ⟨"FAILED"⟩).2.1 rfl
  · exact (handler_status_mapping allProps startedState ⟨"CANCELLED"⟩).2.2.1 rfl
  · exact (handler_status_mapping allProps startedState ⟨"SOMETHING_ELSE"⟩).2.2.2
      (by decide) (by decide) (by decide) (by decide)

/-- C2 counterexample: the handler does not consult the current status.
Invoked with current state `COMPLETED` (a terminal status) and an
incoming `{status:"PENDING"}` event, it stores `PENDING`, not the
terminal status the claim requires. -/
theorem reducer_not_sticky_counterexample :
    (handleStatusUpdate allProps terminalState ⟨"PENDING"⟩).1.transferStatus =
      TransferStatus.PENDING ∧
    TransferStatus.PENDING ≠ TransferStatus.COMPLETED := by decide

/-- C2 (amended): stickiness of terminal statuses is enforced by channel
teardown, not by the reducer.  A handler step whose event maps to a
terminal status stores that status and clears the client reference, and
since the channel delivers events only while the client is live, every
subsequent raw event leaves the stored status unchanged and fires no
callback. -/
theorem terminal_sticky_via_disconnect (p : Props) (st : ModalState)
    (ev : RawStatusEvent) (hterm : (mapRawStatus ev.status).isTerminal = true)
    (evs : List RawStatusEvent) :
    (handleStatusUpdate p st ev).1.transferStatus = mapRawStatus ev.status ∧
    (handleStatusUpdate p st ev).1.zenobiaClient = none ∧
    (deliverEvents p (handleStatusUpdate p st ev).1 evs).1.transferStatus =
      mapRawStatus ev.status ∧
    (deliverEvents p (handleStatusUpdate p st ev).1 evs).2 = [] := by
  have h1 := hsu_transferStatus p st ev
  have h2 := hsu_client_none_of_terminal p st ev hterm
  have h3 := deliverEvents_of_no_client p _ h2 evs
  exact ⟨h1, h2, by rw [h3]; exact h1, by rw [h3]⟩

/-- Witness for the amended C2: after a `FAILED` event, a later
`PENDING` event does not move the stored status. -/
theorem terminal_sticky_via_disconnect_witness :
    (mapRawStatus "FAILED").isTerminal = true ∧
    (deliverEvents allProps
        (handleStatusUpdate allProps startedState ⟨"FAILED"⟩).1
        [⟨"PENDING"⟩]).1.transferStatus = mapRawStatus "FAILED" :=
  ⟨by decide,
    (terminal_sticky_via_disconnect allProps startedState ⟨"FAILED"⟩
      (by decide) [⟨"PENDING"⟩]).2.2.1⟩

/-- C6: a channel error whose wording indicates connectivity loss sets
the reconnecting state and fires nothing; any other error is surfaced
via `onError` (when provided) and leaves `isConnected`,
`isReconnecting` and the client reference untouched. -/
theorem websocket_error_classification (p : Props) (st : ModalState) (msg : String) :
    (isDisconnectionError msg = true →
      (handleWebSocketError p st msg).1.isReconnecting = true ∧
      (handleWebSocketError p st msg).2 = []) ∧
    (isDisconnectionError msg = false →
      ((handleWebSocketError p st msg).1.isConnected = st.isConnected ∧
       (handleWebSocketError p st msg).1.isReconnecting = st.isReconnecting ∧
       (handleWebSocketError p st msg).1.zenobiaClient = st.zenobiaClient) ∧
      (p.hasOnError = true →
        (handleWebSocketError p st msg).2 = [CallbackCall.onError msg])) := by
  constructor <;> intro h
  · simp [handleWebSocketError, h]
  · refine ⟨by simp [handleWebSocketError, h], fun he => ?_⟩
    simp [handleWebSocketError, h, he]

/-- Witness for C6: `"timeout"` routes to reconnection without a
callback; `"payment declined"` is surfaced via `onError` and does not
change the reconnecting state. -/
theorem websocket_error_classification_witness :
    ((handleWebSocketError allProps startedState "timeout").1.isReconnecting = true ∧
     (handleWebSocketError allProps startedState "timeout").2 = []) ∧
    ((handleWebSocketError allProps startedState "payment declined").2 =
       [CallbackCall.onError "payment declined"] ∧
     (handleWebSocketError allProps startedState "payment declined").1.isReconnecting =
       startedState.isReconnecting) := by
  refine ⟨?_, ?_, ?_⟩
  · exact (websocket_error_classification allProps startedState "timeout").1 (by decide)
  · exact ((websocket_error_classification allProps startedState
      "payment declined").2 (by decide)).2 rfl
  · exact (((websocket_error_classification allProps startedState
      "payment declined").2 (by decide)).1).2.1

/-- C7: on a raw event whose status maps to a terminal
`TransferStatus`, the handler calls `disconnect` exactly once, fires
`onSuccess` (for the success-completion case, given a held record) and
`onStatusChange` with the terminal status, clears the client reference,
and thereafter the channel delivers no further transitions to any UI
callback. -/
theorem terminal_closes_channel_once (p : Props) (st : ModalState)
    (ev : RawStatusEvent) (r : TransferRecord)
    (hclient : st.zenobiaClient = some ())
    (hrec : st.transferRequest = some r)
    (hterm : (mapRawStatus ev.status).isTerminal = true) :
    (handleStatusUpdate p st ev).2.count CallbackCall.disconnect = 1 ∧
    (mapRawStatus ev.status = TransferStatus.COMPLETED → p.hasOnSuccess = true →
      CallbackCall.onSuccess r ev ∈ (handleStatusUpdate p st ev).2) ∧
    (p.hasOnStatusChange = true →
      CallbackCall.onStatusChange (mapRawStatus ev.status) ∈
        (handleStatusUpdate p st ev).2) ∧
    (handleStatusUpdate p st ev).1.zenobiaClient = none ∧
    ∀ evs, deliverEvents p (handleStatusUpdate p st ev).1 evs =
      ((handleStatusUpdate p st ev).1, []) := by
  refine ⟨?_, ?_, fun hc => hsu_statusChange_mem p st ev hc,
    hsu_client_none_of_terminal p st ev hterm,
    fun evs => deliverEvents_of_no_client p _
      (hsu_client_none_of_terminal p st ev hterm) evs⟩
  · cases hS : p.hasOnSuccess <;> cases hC : p.hasOnStatusChange <;>
      simp only [handleStatusUpdate, mapRawStatus, disconnectClient,
        hclient, hrec, hS, hC] <;>
      simp only [mapRawStatus] at hterm <;>
      split_ifs at hterm ⊢ <;>
      first
        | exact absurd hterm (by decide)
        | simp [List.count_cons, List.count_nil]
  · intro hcompleted hS
    simp only [handleStatusUpdate, disconnectClient, hclient, hrec, hS]
    simp only [mapRawStatus] at hcompleted
    split_ifs at hcompleted ⊢ <;> simp_all

/-- Witness for C7 at a concrete `COMPLETED` event on a live session. -/
theorem terminal_closes_channel_once_witness :
    (handleStatusUpdate allProps startedState ⟨"COMPLETED"⟩).2.count
      CallbackCall.disconnect = 1 ∧
    CallbackCall.onSuccess goldenRecord ⟨"COMPLETED"⟩ ∈
      (handleStatusUpdate allProps startedState ⟨"COMPLETED"⟩).2 ∧
    deliverEvents allProps
      (handleStatusUpdate allProps startedState ⟨"COMPLETED"⟩).1 [⟨"PENDING"⟩] =
      ((handleStatusUpdate allProps startedState ⟨"COMPLETED"⟩).1, []) := by
  have h := terminal_closes_channel_once allProps startedState ⟨"COMPLETED"⟩
    goldenRecord rfl rfl (by decide)
  exact ⟨h.1, h.2.1 (by decide) rfl, h.2.2.2.2 [⟨"PENDING"⟩]⟩

/-- Does some status occur twice in immediate succession? -/
def hasAdjacentDup : List TransferStatus → Bool
  | a :: b :: rest => a = b || hasAdjacentDup (b :: rest)
  | _ => false

/-- C8 counterexample: the stream handed to `onStatusChange` is not
deduplicated.  Two consecutive `{status:"PENDING"}` raw events on a live
session fire `onStatusChange(PENDING)` twice in a row. -/
theorem statusChange_not_deduplicated :
    statusChangeOutputs
        (deliverEvents allProps startedState [⟨"PENDING"⟩, ⟨"PENDING"⟩]).2 =
      [TransferStatus.PENDING, TransferStatus.PENDING] ∧
    hasAdjacentDup [TransferStatus.PENDING, TransferStatus.PENDING] = true := by
  decide

/-- C8 (amended): the handler performs no deduplication: whenever
`onStatusChange` is provided, every delivered raw event fires it with
the derived status, even when that status equals the currently stored
one; repeats stop only after a terminal status because the channel is
closed. -/
theorem statusChange_fires_every_event (p : Props) (st : ModalState)
    (ev : RawStatusEvent) (h : p.hasOnStatusChange = true) :
    CallbackCall.onStatusChange (mapRawStatus ev.status) ∈
      (handleStatusUpdate p st ev).2 :=
  hsu_statusChange_mem p st ev h

/-- Witness for the amended C8: a `PENDING` event on a session already
in `PENDING` still fires `onStatusChange(PENDING)`. -/
theorem statusChange_fires_every_event_witness :
    startedState.transferStatus = TransferStatus.PENDING ∧
    CallbackCall.onStatusChange (mapRawStatus "PENDING") ∈
      (handleStatusUpdate allProps startedState ⟨"PENDING"⟩).2 :=
  ⟨rfl, statusChange_fires_every_event allProps startedState ⟨"PENDING"⟩ rfl⟩

/-- A session state with no stored client. -/
def stNoClient : ModalState := { startedState with zenobiaClient := none }

/-- C9 counterexample: the `onCleanup` unmount path does not clear the
stored client reference, so a repeated stop through that path calls
`disconnect` on the client again instead of being a no-op. -/
theorem unmount_cleanup_keeps_reference :
    (onCleanupStep startedState).1.zenobiaClient = some () ∧
    (onCleanupStep (onCleanupStep startedState).1).2 =
      [CallbackCall.disconnect] := by decide

/-- C9 (amended): every stop path is total (never throws) and calls
`disconnect` only when a client exists.  The modal-close path clears the
stored reference and is idempotent — a second close disconnects nothing
and leaves the state unchanged.  The unmount path leaves the state (and
hence the stored reference) untouched, so only it repeats the
`disconnect` call when invoked again. -/
theorem stop_paths_safe (st : ModalState) :
    (st.zenobiaClient = none → onCleanupStep st = (st, [])) ∧
    (onCleanupStep st).1 = st ∧
    (st.zenobiaClient = none → (modalCloseCleanup st).2 = []) ∧
    (modalCloseCleanup st).1.zenobiaClient = none ∧
    modalCloseCleanup (modalCloseCleanup st).1 =
      ((modalCloseCleanup st).1, []) := by
  rcases hz : st.zenobiaClient with _ | u <;>
    simp [onCleanupStep, modalCloseCleanup, hz]

/-- Witness for the amended C9: stopping with no client is a no-op, and
a second modal-close after a first one is a no-op. -/
theorem stop_paths_safe_witness :
    (stNoClient.zenobiaClient = none ∧ onCleanupStep stNoClient = (stNoClient, [])) ∧
    modalCloseCleanup (modalCloseCleanup startedState).1 =
      ((modalCloseCleanup startedState).1, []) :=
  ⟨⟨rfl, (stop_paths_safe stNoClient).1 rfl⟩,
    (stop_paths_safe startedState).2.2.2.2⟩

/-- C10: `onSuccess` is never invoked without a transfer record: any
`onSuccess` call emitted by a handler step requires the callback to be
provided and a record to be held, and passes exactly that record
together with the raw event being handled. -/
theorem onSuccess_requires_record (p : Props) (st : ModalState)
    (ev : RawStatusEvent) (r : TransferRecord) (e : RawStatusEvent)
    (h : CallbackCall.onSuccess r e ∈ (handleStatusUpdate p st ev).2) :
    p.hasOnSuccess = true ∧ st.transferRequest = some r ∧ e = ev := by
  cases hS : p.hasOnSuccess <;> rcases hr : st.transferRequest with _ | rec <;>
    cases hC : p.hasOnStatusChange <;>
    rcases hz : st.zenobiaClient with _ | u <;>
    simp only [handleStatusUpdate, disconnectClient, hS, hr, hC, hz] at h <;>
    split_ifs at h <;> simp_all

/-- Witness for C10 at a concrete `COMPLETED` event with a held record. -/
theorem onSuccess_requires_record_witness :
    CallbackCall.onSuccess goldenRecord ⟨"COMPLETED"⟩ ∈
      (handleStatusUpdate allProps startedState ⟨"COMPLETED"⟩).2 ∧
    (allProps.hasOnSuccess = true ∧
     startedState.transferRequest = some goldenRecord) := by
  have hm : CallbackCall.onSuccess goldenRecord ⟨"COMPLETED"⟩ ∈
      (handleStatusUpdate allProps startedState ⟨"COMPLETED"⟩).2 := by decide
  have h := onSuccess_requires_record allProps startedState ⟨"COMPLETED"⟩
    goldenRecord ⟨"COMPLETED"⟩ hm
  exact ⟨hm, h.1, h.2.1⟩

/-- C4 counterexample: fed an empty transfer identifier, the
QR-generation effect of the source silently does nothing — it produces
no payload and signals no error — whereas the spec-modelled encoder
rejects the empty identifier with `InvalidArgument`. -/
theorem empty_id_silent_counterexample :
    qrCodeEffect (some ⟨"", "m1", none, none⟩) false = none ∧
    encodeRejectingEmpty "" = Except.error "InvalidArgument" := ⟨rfl, rfl⟩

/-- C4 (amended): when the transfer identifier is the empty string the
QR-generation effect is a silent no-op: its truthiness guard fails, so
no QR payload is produced and no error of any kind is signalled. -/
theorem empty_id_no_qr_no_error (m : String) (e : Option Nat)
    (sig : Option String) (isTest : Bool) :
    qrCodeEffect (some ⟨"", m, e, sig⟩) isTest = none := by
  simp [qrCodeEffect]

/-- A failed HTTP response whose JSON body carries a server message. -/
def failedResponse : FetchResponse :=
  ⟨false, "Bad Request", some "insufficient funds"⟩

/-- A parsed create-transfer success body (never returned on failure). -/
def dummyBody : TransferResponse := ⟨"t-1", "m1", 100⟩

/-- C5 counterexample: on a non-2xx response whose body carries the
server message `"insufficient funds"`, `createTransfer` of `api.ts`
fails with a message built from the HTTP `statusText`, not with the
server-provided body message. -/
theorem createTransfer_ignores_server_message :
    createTransfer failedResponse dummyBody =
      Except.error "Error creating transfer: Bad Request" ∧
    failedResponse.bodyMessage = some "insufficient funds" ∧
    "Error creating transfer: Bad Request" ≠ "insufficient funds" :=
  ⟨rfl, rfl, by decide⟩

/-- C5 (amended): every non-2xx response makes both create operations
fail rather than return a record.  `createPayment` fails with the
server-provided body message when present and non-empty, else with its
generic message; `createTransfer` of `api.ts` always fails with the
generic message built from the HTTP `statusText`, ignoring the body. -/
theorem non2xx_always_fails (resp : FetchResponse) (body : TransferResponse)
    (pid : Nat) (h : resp.ok = false) :
    (∀ r, createTransfer resp body ≠ Except.ok r) ∧
    createTransfer resp body =
      Except.error ("Error creating transfer: " ++ resp.statusText) ∧
    (∀ n, createPayment resp pid ≠ Except.ok n) ∧
    (∀ m, resp.bodyMessage = some m → m ≠ "" →
      createPayment resp pid = Except.error m) ∧
    (resp.bodyMessage = none →
      createPayment resp pid = Except.error "Failed to create payment") := by
  refine ⟨?_, ?_, ?_, ?_, ?_⟩
  · intro r; simp [createTransfer, h]
  · simp [createTransfer, h]
  · intro n; simp [createPayment, h]
  · intro m hm hne; simp [createPayment, h, hm, hne]
  · intro hm; simp [createPayment, h, hm]

/-- Witness for the amended C5 at a concrete failed response. -/
theorem non2xx_always_fails_witness :
    failedResponse.ok = false ∧
    createTransfer failedResponse dummyBody =
      Except.error "Error creating transfer: Bad Request" ∧
    createPayment failedResponse 7 = Except.error "insufficient funds" := by
  refine ⟨rfl, ?_, ?_⟩
  · exact (non2xx_always_fails failedResponse dummyBody 7 rfl).2.1
  · exact (non2xx_always_fails failedResponse dummyBody 7 rfl).2.2.2.1
      "insufficient funds" rfl (by decide)

/-- Alphabet lookups always land in the alphabet. -/
theorem b64char_mem (n : Nat) : b64char n ∈ base64Chars := by
  unfold b64char
  cases h : base64Chars.get? n with
  | none => decide
  | some c => exact List.get?_mem h

/-- Base64 output splits into an alphabet body followed by `=` padding. -/
theorem encodeChunks_split (bs : List Nat) :
    ∃ body pad, encodeChunks bs = body ++ pad ∧
      (∀ c ∈ body, c ∈ base64Chars) ∧ (∀ c ∈ pad, c = '=') := by
  induction bs using encodeChunks.induct with
  | case1 =>
    exact ⟨[], [], rfl, by simp, by simp⟩
  | case2 b0 =>
    refine ⟨[b64char (b0 / 4), b64char (b0 % 4 * 16)], ['=', '='], rfl, ?_, by simp⟩
    intro c hc
    simp only [List.mem_cons, List.not_mem_nil, or_false] at hc
    rcases hc with rfl | rfl <;> exact b64char_mem _
  | case3 b0 b1 =>
    refine ⟨[b64char (b0 / 4), b64char (b0 % 4 * 16 + b1 / 16),
      b64char (b1 % 16 * 4)], ['='], rfl, ?_, by simp⟩
    intro c hc
    simp only [List.mem_cons, List.not_mem_nil, or_false] at hc
    rcases hc with rfl | rfl | rfl <;> exact b64char_mem _
  | case4 b0 b1 b2 rest ih =>
    obtain ⟨body, pad, he, hb, hp⟩ := ih
    refine ⟨b64char (b0 / 4) :: b64char (b0 % 4 * 16 + b1 / 16) ::
      b64char (b1 % 16 * 4 + b2 / 64) :: b64char (b2 % 64) :: body, pad,
      by simp [encodeChunks, he], ?_, hp⟩
    intro c hc
    simp only [List.mem_cons] at hc
    rcases hc with rfl | rfl | rfl | rfl | h
    · exact b64char_mem _
    · exact b64char_mem _
    · exact b64char_mem _
    · exact b64char_mem _
    · exact hb c h

/-- The URL-safe map never outputs `+`. -/
theorem urlSafeChar_ne_plus (c : Char) : urlSafeChar c ≠ '+' := by
  unfold urlSafeChar
  split_ifs with h1 h2 <;> simp_all

/-- The URL-safe map never outputs `/`. -/
theorem urlSafeChar_ne_slash (c : Char) : urlSafeChar c ≠ '/' := by
  unfold urlSafeChar
  split_ifs with h1 h2 <;> simp_all

/-- The URL-safe map sends alphabet characters to non-`=` characters. -/
theorem urlSafeChar_ne_eq_of_mem (c : Char) (h : c ∈ base64Chars) :
    urlSafeChar c ≠ '=' := by
  unfold urlSafeChar
  split_ifs with h1 h2
  · decide
  · decide
  · intro hc
    rw [hc] at h
    exact absurd h (by decide)

/-- Dropping over a block that satisfies the predicate skips it. -/
theorem dropWhile_append_of_all {α : Type} (p : α → Bool) (l₁ l₂ : List α)
    (h : ∀ c ∈ l₁, p c = true) :
    List.dropWhile p (l₁ ++ l₂) = List.dropWhile p l₂ := by
  induction l₁ with
  | nil => rfl
  | cons a l ih =>
    rw [List.cons_append, List.dropWhile_cons, if_pos (h a (by simp))]
    exact ih fun c hc => h c (by simp [hc])

/-- Dropping over a list none of whose elements satisfy the predicate
is the identity. -/
theorem dropWhile_eq_self_of_none {α : Type} (p : α → Bool) (l : List α)
    (h : ∀ c ∈ l, p c = false) :
    List.dropWhile p l = l := by
  cases l with
  | nil => rfl
  | cons a l => rw [List.dropWhile_cons, if_neg (by simp [h a (by simp)])]

/-- Stripping the trailing `=` run from a body-plus-padding split leaves
exactly the body. -/
theorem stripTrailingEq_of_split (y pad : List Char)
    (hy : ∀ c ∈ y, c ≠ '=') (hpad : ∀ c ∈ pad, c = '=') :
    stripTrailingEq (y ++ pad) = y := by
  unfold stripTrailingEq
  rw [List.reverse_append]
  rw [dropWhile_append_of_all _ pad.reverse y.reverse
    (fun c hc => by simp [hpad c (List.mem_reverse.mp hc)])]
  rw [dropWhile_eq_self_of_none _ y.reverse
    (fun c hc => by simpa using hy c (List.mem_reverse.mp hc))]
  exact List.reverse_reverse y

/-- C3: for every non-empty transfer identifier the QR-payload encoding
is deterministic and equals the dash-stripped, base64-encoded,
URL-safe-rewritten, padding-stripped transform of the identifier (this
is its definition, extracted verbatim from the source effect), and its
output contains no `+`, `/`, or `=` character. -/
theorem qr_encode_urlsafe (s : String) (_hne : s ≠ "") :
    (∀ t, t = s → encodeQrPayload t = encodeQrPayload s) ∧
    encodeQrPayload s =
      String.mk (stripTrailingEq
        ((btoa (String.mk (s.toList.filter fun c => c != '-'))).toList.map
          urlSafeChar)) ∧
    ∀ c ∈ (encodeQrPayload s).toList, c ≠ '+' ∧ c ≠ '/' ∧ c ≠ '=' := by
  refine ⟨fun t ht => ht ▸ rfl, rfl, ?_⟩
  obtain ⟨body, pad, he, hb, hp⟩ := encodeChunks_split
    ((String.mk (s.toList.filter fun c => c != '-')).toList.map fun c => c.toNat % 256)
  intro c hc
  have hlist : (encodeQrPayload s).toList =
      stripTrailingEq ((encodeChunks
        ((String.mk (s.toList.filter fun c => c != '-')).toList.map
          fun c => c.toNat % 256)).map urlSafeChar) := rfl
  rw [he] at hlist
  rw [hlist, List.map_append] at hc
  rw [stripTrailingEq_of_split (body.map urlSafeChar) (pad.map urlSafeChar)
    (by
      intro x hx
      obtain ⟨b, hbmem, rfl⟩ := List.mem_map.mp hx
      exact urlSafeChar_ne_eq_of_mem b (hb b hbmem))
    (by
      intro x hx
      obtain ⟨b, hbmem, rfl⟩ := List.mem_map.mp hx
      rw [hp b hbmem]
      rfl)] at hc
  obtain ⟨b, hbmem, rfl⟩ := List.mem_map.mp hc
  exact ⟨urlSafeChar_ne_plus b, urlSafeChar_ne_slash b,
    urlSafeChar_ne_eq_of_mem b (hb b hbmem)⟩

/-- Witness for C3 at the golden identifier of spec §8. -/
theorem qr_encode_urlsafe_witness :
    ("2f9b7e10-aa11-4cde-9012-abcdef123456" ≠ "") ∧
    ∀ c ∈ (encodeQrPayload "2f9b7e10-aa11-4cde-9012-abcdef123456").toList,
      c ≠ '+' ∧ c ≠ '/' ∧ c ≠ '=' :=
  ⟨by decide,
    (qr_encode_urlsafe "2f9b7e10-aa11-4cde-9012-abcdef123456" (by decide)).2.2⟩

example : encodeQrPayload "2f9b7e10-aa11-4cde-9012-abcdef123456" =
    "MmY5YjdlMTBhYTExNGNkZTkwMTJhYmNkZWYxMjM0NTY" := by decide
